import Mathlib

/-
Verification of the client-side request/caching/retry layer of the
Company Lookup Dashboard frontend.

Shallow embedding of:
  - src/frontend/src/services/constants.js (constants module and the API
    service module that is concatenated after it: axios client config,
    transformError, retryRequest, the in-memory response cache, the
    ApiService facade, and the recent-search persistence helpers);
  - the validators module (validateSearchQuery, sanitizeString);
  - the useCompanySearch hook (performSearch state updates).

JavaScript strings are modelled as Lean Strings (or List Char where
character-level whitespace handling matters), machine numbers as Nat/Int,
thrown errors as Except, and the mutable Map cache as an association list
threaded through each operation.
-/

set_option autoImplicit false

/-! ## Constants (src/frontend/src/services/constants.js) -/

/-- API_CONFIG.TIMEOUT: 30000 ms. -/
def API_CONFIG_TIMEOUT : Nat := 30000

/-- API_CONFIG.RETRY_ATTEMPTS. -/
def API_CONFIG_RETRY_ATTEMPTS : Nat := 3

/-- API_CONFIG.RETRY_DELAY: base backoff delay in ms. -/
def API_CONFIG_RETRY_DELAY : Nat := 1000

/-- Timeout configured on the axios instance: `axios.create({ timeout: API_CONFIG.TIMEOUT })`. -/
def apiClientTimeout : Nat := API_CONFIG_TIMEOUT

/-- CACHE_CONFIG.DEFAULT_TTL (5 minutes, in ms). -/
def CACHE_CONFIG_DEFAULT_TTL : Int := 5 * 60 * 1000

/-- CACHE_CONFIG.SEARCH_TTL (2 minutes, in ms). -/
def CACHE_CONFIG_SEARCH_TTL : Int := 2 * 60 * 1000

/-- CACHE_CONFIG.COMPANY_TTL (10 minutes, in ms). -/
def CACHE_CONFIG_COMPANY_TTL : Int := 10 * 60 * 1000

/-- CACHE_CONFIG.STOCK_TTL (1 minute, in ms). -/
def CACHE_CONFIG_STOCK_TTL : Int := 1 * 60 * 1000

/-- CACHE_CONFIG.FILINGS_TTL (30 minutes, in ms). -/
def CACHE_CONFIG_FILINGS_TTL : Int := 30 * 60 * 1000

/-- SEARCH_CONFIG.MIN_QUERY_LENGTH. -/
def SEARCH_CONFIG_MIN_QUERY_LENGTH : Nat := 2

/-- SEARCH_CONFIG.MAX_QUERY_LENGTH. -/
def SEARCH_CONFIG_MAX_QUERY_LENGTH : Nat := 100

/-! ## Error taxonomy and classifier (transformError) -/

/-- ERROR_TYPES from constants.js: the closed error taxonomy. -/
inductive ErrorType where
  | NETWORK_ERROR
  | TIMEOUT_ERROR
  | API_ERROR
  | VALIDATION_ERROR
  | NOT_FOUND
  | RATE_LIMIT
  | SERVER_ERROR
  | UNKNOWN_ERROR
deriving DecidableEq, Repr

/-- Body of an HTTP error response (`error.response.data`): optional
server-supplied message and optional field-level errors list. -/
structure ResponseBody where
  message : Option String
  errors : Option (List String)
deriving DecidableEq, Repr

/-- An HTTP response attached to an axios failure (`error.response`):
status code, optional body, and the `retry-after` header when present. -/
structure HttpResponse where
  status : Nat
  body : Option ResponseBody
  retryAfterHeader : Option String
deriving DecidableEq, Repr

/-- An axios failure as seen by transformError: `error.response` is absent
exactly when no HTTP response was received (network failure, DNS, timeout). -/
structure AxiosError where
  response : Option HttpResponse
deriving DecidableEq, Repr

/-- An Error Record produced by transformError: kind, message, optional
field errors, optional retry-after hint, and the originating failure. -/
structure ErrorRecord where
  type : ErrorType
  message : String
  errors : List String
  retryAfter : Option String
  originalError : AxiosError
deriving DecidableEq, Repr

/-- JavaScript `x || fallback` on an optional string: the fallback is used
when the value is absent or is the empty string (falsy). -/
def jsOrString (o : Option String) (fallback : String) : String :=
  match o with
  | some s => if s = "" then fallback else s
  | none => fallback

/-- transformError from the api service module: maps an axios failure to an
Error Record. No response → NETWORK_ERROR; then a switch on the status code:
400 → VALIDATION_ERROR (with `data?.errors || []`), 404 → NOT_FOUND,
429 → RATE_LIMIT (with the retry-after header), 500/502/503/504 →
SERVER_ERROR, default → API_ERROR. -/
def transformError (error : AxiosError) : ErrorRecord :=
  match error.response with
  | none =>
    { type := ErrorType.NETWORK_ERROR
      message := "Network error. Please check your internet connection."
      errors := []
      retryAfter := none
      originalError := error }
  | some resp =>
    let dmsg : Option String := resp.body.bind (fun d => d.message)
    if resp.status = 400 then
      { type := ErrorType.VALIDATION_ERROR
        message := jsOrString dmsg "Invalid request parameters."
        errors := (resp.body.bind (fun d => d.errors)).getD []
        retryAfter := none
        originalError := error }
    else if resp.status = 404 then
      { type := ErrorType.NOT_FOUND
        message := jsOrString dmsg "The requested resource was not found."
        errors := []
        retryAfter := none
        originalError := error }
    else if resp.status = 429 then
      { type := ErrorType.RATE_LIMIT
        message := jsOrString dmsg "Too many requests. Please try again later."
        errors := []
        retryAfter := resp.retryAfterHeader
        originalError := error }
    else if resp.status = 500 ∨ resp.status = 502 ∨ resp.status = 503 ∨ resp.status = 504 then
      { type := ErrorType.SERVER_ERROR
        message := jsOrString dmsg "Server error. Please try again later."
        errors := []
        retryAfter := none
        originalError := error }
    else
      { type := ErrorType.API_ERROR
        message := jsOrString dmsg ("Request failed with status " ++ toString resp.status ++ ".")
        errors := []
        retryAfter := none
        originalError := error }

/-! ## Retry policy (retryRequest) -/

/-- Guard inside retryRequest's catch: an error is rethrown immediately
(no retry) when its kind is VALIDATION_ERROR or NOT_FOUND, or when
`error.originalError?.response?.status === HTTP_STATUS.BAD_REQUEST`. -/
def isNonRetryable (e : ErrorRecord) : Bool :=
  decide (e.type = ErrorType.VALIDATION_ERROR) ||
  decide (e.type = ErrorType.NOT_FOUND) ||
  (match e.originalError.response with
   | some r => decide (r.status = 400)
   | none => false)

/-- Observable trace of one retryRequest run: the propagated result, how
many times the request function was invoked, and the backoff delays (ms)
inserted between attempts, in order. -/
structure RetryTrace (α : Type) where
  result : Except ErrorRecord α
  attempts : Nat
  delays : List Nat
deriving Repr

/-- Loop body of retryRequest. The request function is indexed by the
1-based attempt number; `remaining` counts the attempts still allowed after
the current one (so the loop runs `remaining + 1` more times at most). On a
retryable failure with attempts remaining, the delay
`RETRY_DELAY * 2 ^ (attempt - 1)` is recorded and the next attempt runs. -/
def retryRequestAux {α : Type} (requestFn : Nat → Except ErrorRecord α) :
    Nat → Nat → RetryTrace α
  | attempt, remaining =>
    match requestFn attempt with
    | Except.ok a => { result := Except.ok a, attempts := 1, delays := [] }
    | Except.error e =>
      if isNonRetryable e then
        { result := Except.error e, attempts := 1, delays := [] }
      else
        match remaining with
        | 0 => { result := Except.error e, attempts := 1, delays := [] }
        | r + 1 =>
          let d := API_CONFIG_RETRY_DELAY * 2 ^ (attempt - 1)
          let t := retryRequestAux requestFn (attempt + 1) r
          { result := t.result, attempts := t.attempts + 1, delays := d :: t.delays }

/-- retryRequest from the api service module: `for (attempt = 1; attempt <=
maxRetries; attempt++)` around the request function. Returns none for
`maxRetries = 0` (the JS loop body never runs and an undefined lastError is
thrown); otherwise the trace of the run. -/
def retryRequest {α : Type} (requestFn : Nat → Except ErrorRecord α)
    (maxRetries : Nat) : Option (RetryTrace α) :=
  match maxRetries with
  | 0 => none
  | m + 1 => some (retryRequestAux requestFn 1 m)

/-! ## Sample failures used by concrete witnesses -/

/-- Classified error of a bare HTTP 404 response. -/
def err404 : ErrorRecord :=
  transformError { response := some { status := 404, body := none, retryAfterHeader := none } }

/-- Classified error of a bare HTTP 500 response. -/
def err500 : ErrorRecord :=
  transformError { response := some { status := 500, body := none, retryAfterHeader := none } }

/-- A 429 response carrying a retry-after header. -/
def rateLimitResponse : HttpResponse :=
  { status := 429, body := none, retryAfterHeader := some "7" }

/-- Classified error of the 429 response above. -/
def rateLimitError : ErrorRecord :=
  transformError { response := some rateLimitResponse }

/-! ## Helper lemmas on the classifier -/

/-- A 429-classified error is retryable for retryRequest. -/
theorem isNonRetryable_of_429 (r : HttpResponse) (h : r.status = 429) :
    isNonRetryable (transformError { response := some r }) = false := by
  simp [transformError, isNonRetryable, h]

/-- Classification of a 429 response: RATE_LIMIT with the retry-after hint. -/
theorem transformError_429 (r : HttpResponse) (h : r.status = 429) :
    (transformError { response := some r }).type = ErrorType.RATE_LIMIT ∧
    (transformError { response := some r }).retryAfter = r.retryAfterHeader := by
  simp [transformError, h]

/-- C6: the error classifier transformError is a pure total function with
first-match-wins rules: no response → NETWORK_ERROR; 400 → VALIDATION_ERROR
carrying the body's field-level errors; 404 → NOT_FOUND; 429 → RATE_LIMIT
carrying the retry-after header; 500/502/503/504 → SERVER_ERROR; every other
non-2xx status → API_ERROR. Being a Lean function, it maps every input to
exactly one record, and classifying the same input twice yields the same
kind. -/
theorem c6_transform_error_classification (e : AxiosError) :
    (e.response = none → (transformError e).type = ErrorType.NETWORK_ERROR) ∧
    (∀ r : HttpResponse, e.response = some r →
      (r.status = 400 → (transformError e).type = ErrorType.VALIDATION_ERROR ∧
        (transformError e).errors = (r.body.bind (fun d => d.errors)).getD []) ∧
      (r.status = 404 → (transformError e).type = ErrorType.NOT_FOUND) ∧
      (r.status = 429 → (transformError e).type = ErrorType.RATE_LIMIT ∧
        (transformError e).retryAfter = r.retryAfterHeader) ∧
      ((r.status = 500 ∨ r.status = 502 ∨ r.status = 503 ∨ r.status = 504) →
        (transformError e).type = ErrorType.SERVER_ERROR) ∧
      (¬ (200 ≤ r.status ∧ r.status < 300) →
        r.status ∉ ([400, 404, 429, 500, 502, 503, 504] : List Nat) →
        (transformError e).type = ErrorType.API_ERROR)) := by
  obtain ⟨resp⟩ := e
  cases resp with
  | none =>
    refine ⟨fun _ => rfl, ?_⟩
    intro r hr
    simp at hr
  | some r0 =>
    constructor
    · intro h; simp at h
    · intro r hr
      simp only at hr
      injection hr with hr
      subst hr
      refine ⟨?_, ?_, ?_, ?_, ?_⟩
      · intro h; constructor <;> simp [transformError, h]
      · intro h; simp [transformError, h]
      · intro h; constructor <;> simp [transformError, h]
      · rintro (h | h | h | h) <;> simp [transformError, h]
      · intro _ hnot
        simp only [List.mem_cons, List.not_mem_nil, or_false] at hnot
        push_neg at hnot
        obtain ⟨h400, h404, h429, h500, h502, h503, h504⟩ := hnot
        simp [transformError, h400, h404, h429, h500, h502, h503, h504]

/-- C6 witness: a bare 404 failure classifies as NOT_FOUND. -/
theorem c6_transform_error_classification_witness :
    (transformError { response := some { status := 404, body := none, retryAfterHeader := none } }).type
      = ErrorType.NOT_FOUND :=
  ((c6_transform_error_classification _).2 _ rfl).2.1 rfl

/-- C1: retryRequest with 3 attempts. A first-attempt failure whose kind is
VALIDATION_ERROR or NOT_FOUND or whose underlying status is 400 is rethrown
immediately: one attempt, no backoff. A request function that fails
retryably on every attempt is tried exactly 3 times (2 additional
attempts), the last classified error is propagated, and the backoff wait
after failed attempt n is RETRY_DELAY * 2 ^ (n - 1) ms, i.e. 1000 and 2000. -/
theorem c1_retry_policy {α : Type} (f : Nat → Except ErrorRecord α) :
    (∀ e : ErrorRecord, f 1 = Except.error e → isNonRetryable e = true →
      retryRequest f 3 = some { result := Except.error e, attempts := 1, delays := [] }) ∧
    ((∀ n, 1 ≤ n → n ≤ 3 → ∃ e, f n = Except.error e ∧ isNonRetryable e = false) →
      ∃ e3 : ErrorRecord, f 3 = Except.error e3 ∧
        retryRequest f 3 = some { result := Except.error e3
                                  attempts := 3
                                  delays := [API_CONFIG_RETRY_DELAY * 2 ^ (1 - 1),
                                    API_CONFIG_RETRY_DELAY * 2 ^ (2 - 1)] }) := by
  constructor
  · intro e h1 hnr
    simp [retryRequest, retryRequestAux, h1, hnr]
  · intro H
    obtain ⟨e1, h1, n1⟩ := H 1 (by omega) (by omega)
    obtain ⟨e2, h2, n2⟩ := H 2 (by omega) (by omega)
    obtain ⟨e3, h3, n3⟩ := H 3 (by omega) (by omega)
    refine ⟨e3, h3, ?_⟩
    simp [retryRequest, retryRequestAux, h1, h2, h3, n1, n2, n3]

/-- C1 witness: a NOT_FOUND failure aborts after one attempt; an
always-500 request function is attempted exactly 3 times with backoffs
1000 ms and 2000 ms. -/
theorem c1_retry_policy_witness :
    (retryRequest (fun _ => (Except.error err404 : Except ErrorRecord Unit)) 3 =
      some { result := Except.error err404, attempts := 1, delays := [] }) ∧
    ∃ e3 : ErrorRecord,
      (fun _ => (Except.error err500 : Except ErrorRecord Unit)) 3 = Except.error e3 ∧
      retryRequest (fun _ => (Except.error err500 : Except ErrorRecord Unit)) 3 =
        some { result := Except.error e3
               attempts := 3
               delays := [API_CONFIG_RETRY_DELAY * 2 ^ (1 - 1),
                 API_CONFIG_RETRY_DELAY * 2 ^ (2 - 1)] } :=
  ⟨(c1_retry_policy _).1 err404 rfl (by decide),
   (c1_retry_policy _).2 (fun _ _ _ => ⟨err500, rfl, by decide⟩)⟩

/-- C2 counterexample: a request function that keeps failing with the
RATE_LIMIT classification of an HTTP 429 response is re-issued by
retryRequest: it is attempted 3 times, not once, refuting the claim that
the RATE_LIMIT record is propagated after the first attempt without any
automatic retry. -/
theorem c2_counterexample :
    rateLimitError.type = ErrorType.RATE_LIMIT ∧
    rateLimitError.retryAfter = some "7" ∧
    (retryRequest (fun _ => (Except.error rateLimitError : Except ErrorRecord Unit)) 3).map
      (fun t => t.attempts) = some 3 ∧
    ¬ (retryRequest (fun _ => (Except.error rateLimitError : Except ErrorRecord Unit)) 3).map
        (fun t => t.attempts) = some 1 := by
  decide

/-- C2 amended: retryRequest treats RATE_LIMIT (HTTP 429) failures as
retryable: a request function failing with 429-classified errors on every
attempt is re-issued up to 3 attempts with exponential backoff, and the
last RATE_LIMIT record, including its retry-after hint, is propagated only
after the attempts are exhausted. -/
theorem c2_rate_limit_is_retried {α : Type} (f : Nat → Except ErrorRecord α)
    (H : ∀ n, 1 ≤ n → n ≤ 3 → ∃ r : HttpResponse, r.status = 429 ∧
      f n = Except.error (transformError { response := some r })) :
    ∃ r3 : HttpResponse, r3.status = 429 ∧
      retryRequest f 3 = some
        { result := Except.error (transformError { response := some r3 })
          attempts := 3
          delays := [API_CONFIG_RETRY_DELAY * 2 ^ (1 - 1), API_CONFIG_RETRY_DELAY * 2 ^ (2 - 1)] } ∧
      (transformError { response := some r3 }).type = ErrorType.RATE_LIMIT ∧
      (transformError { response := some r3 }).retryAfter = r3.retryAfterHeader := by
  obtain ⟨r1, s1, h1⟩ := H 1 (by omega) (by omega)
  obtain ⟨r2, s2, h2⟩ := H 2 (by omega) (by omega)
  obtain ⟨r3, s3, h3⟩ := H 3 (by omega) (by omega)
  refine ⟨r3, s3, ?_, (transformError_429 r3 s3).1, (transformError_429 r3 s3).2⟩
  simp [retryRequest, retryRequestAux, h1, h2, h3,
    isNonRetryable_of_429 r1 s1, isNonRetryable_of_429 r2 s2, isNonRetryable_of_429 r3 s3]

/-- C2 witness: the always-429 request function is attempted 3 times and the
propagated record keeps the retry-after hint. -/
theorem c2_rate_limit_is_retried_witness :
    ∃ r3 : HttpResponse, r3.status = 429 ∧
      retryRequest (fun _ => (Except.error rateLimitError : Except ErrorRecord Unit)) 3 = some
        { result := Except.error (transformError { response := some r3 })
          attempts := 3
          delays := [API_CONFIG_RETRY_DELAY * 2 ^ (1 - 1), API_CONFIG_RETRY_DELAY * 2 ^ (2 - 1)] } ∧
      (transformError { response := some r3 }).type = ErrorType.RATE_LIMIT ∧
      (transformError { response := some r3 }).retryAfter = r3.retryAfterHeader :=
  c2_rate_limit_is_retried (fun _ => (Except.error rateLimitError : Except ErrorRecord Unit))
    (fun _ _ _ => ⟨rateLimitResponse, rfl, rfl⟩)

/-- C8 counterexample: a timed-out request reaches transformError with no
response attached, and is classified as NETWORK_ERROR, which is not the
TIMEOUT_ERROR kind of the taxonomy. -/
theorem c8_counterexample :
    (transformError { response := none }).type = ErrorType.NETWORK_ERROR ∧
    ErrorType.NETWORK_ERROR ≠ ErrorType.TIMEOUT_ERROR := by
  decide

/-- C8 amended: the axios client enforces the fixed 30-second timeout, and a
timed-out call (no response received) fails with a NETWORK_ERROR-classified
record; the classifier never produces the TIMEOUT_ERROR kind on any input. -/
theorem c8_timeout_classified_as_network_error :
    apiClientTimeout = 30000 ∧
    (∀ e : AxiosError, e.response = none → (transformError e).type = ErrorType.NETWORK_ERROR) ∧
    ∀ e : AxiosError, (transformError e).type ≠ ErrorType.TIMEOUT_ERROR := by
  refine ⟨rfl, ?_, ?_⟩
  · intro e h
    obtain ⟨resp⟩ := e
    cases resp with
    | none => rfl
    | some r => simp at h
  · intro e
    obtain ⟨resp⟩ := e
    cases resp with
    | none => simp [transformError]
    | some r =>
      simp only [transformError]
      split_ifs <;> simp

/-- C8 witness: the no-response failure is classified as NETWORK_ERROR. -/
theorem c8_timeout_classified_as_network_error_witness :
    (transformError { response := none }).type = ErrorType.NETWORK_ERROR :=
  c8_timeout_classified_as_network_error.2.1 { response := none } rfl

/-! ## Response cache (in-memory Map: isValidCacheEntry / setCache / getCache) -/

/-- One cache entry: `{ data, timestamp: Date.now(), ttl }`. -/
structure CacheEntry (α : Type) where
  data : α
  timestamp : Int
  ttl : Int
deriving DecidableEq, Repr

/-- The in-memory cache `const cache = new Map()`, modelled as an
association list with unique keys, threaded through each operation. -/
abbrev Cache (α : Type) : Type := List (String × CacheEntry α)

/-- `cache.get(key)`. -/
def cacheLookup {α : Type} (c : Cache α) (key : String) : Option (CacheEntry α) :=
  match c with
  | [] => none
  | (k, e) :: rest => if k = key then some e else cacheLookup rest key

/-- `cache.delete(key)` (a no-op when the key is absent). -/
def cacheDelete {α : Type} (c : Cache α) (key : String) : Cache α :=
  c.filter (fun p => p.1 != key)

/-- isValidCacheEntry: `entry && (Date.now() - entry.timestamp) < ttl`,
where `ttl` is the argument passed by the caller. -/
def isValidCacheEntry {α : Type} (entry : Option (CacheEntry α)) (now ttl : Int) : Bool :=
  match entry with
  | none => false
  | some e => decide (now - e.timestamp < ttl)

/-- setCache: `cache.set(key, { data, timestamp: Date.now(), ttl })`;
Map.set replaces any existing entry under the key. -/
def setCache {α : Type} (c : Cache α) (key : String) (data : α) (now ttl : Int) : Cache α :=
  (key, { data := data, timestamp := now, ttl := ttl }) :: cacheDelete c key

/-- getCache: look the entry up; if valid return its data (cache
untouched); otherwise `cache.delete(key)` (lazy eviction) and return null.
Returns the value read together with the possibly-updated cache. -/
def getCache {α : Type} (c : Cache α) (key : String) (now ttl : Int) :
    Option α × Cache α :=
  match cacheLookup c key with
  | some entry =>
    if isValidCacheEntry (some entry) now ttl then (some entry.data, c)
    else (none, cacheDelete c key)
  | none => (none, cacheDelete c key)

/-- Looking up the key just written by setCache finds the fresh entry. -/
theorem cacheLookup_setCache_self {α : Type} (c : Cache α) (k : String) (v : α)
    (t0 ttl : Int) :
    cacheLookup (setCache c k v t0 ttl) k = some { data := v, timestamp := t0, ttl := ttl } := by
  simp [setCache, cacheLookup]

/-- After cacheDelete the key no longer resolves. -/
theorem cacheLookup_cacheDelete_self {α : Type} (c : Cache α) (k : String) :
    cacheLookup (cacheDelete c k) k = none := by
  induction c with
  | nil => rfl
  | cons p rest ih =>
    obtain ⟨k', e⟩ := p
    by_cases h : k' = k
    · simpa [cacheDelete, List.filter_cons, h] using ih
    · simpa [cacheDelete, List.filter_cons, h, cacheLookup] using ih

/-- C4: TTL semantics of the cache. After `setCache k v` at time t0 with
TTL `ttl`, a `getCache k` at time t1 returns v while `t1 - t0 < ttl`; once
`ttl` has elapsed the read returns absent, the stale entry is deleted from
the cache (lazy eviction), and every subsequent read of k also returns
absent. -/
theorem c4_cache_ttl {α : Type} (c : Cache α) (k : String) (v : α) (ttl t0 t1 : Int) :
    (t1 - t0 < ttl → (getCache (setCache c k v t0 ttl) k t1 ttl).1 = some v) ∧
    (ttl ≤ t1 - t0 →
      (getCache (setCache c k v t0 ttl) k t1 ttl).1 = none ∧
      cacheLookup ((getCache (setCache c k v t0 ttl) k t1 ttl).2) k = none ∧
      ∀ t2 : Int, (getCache ((getCache (setCache c k v t0 ttl) k t1 ttl).2) k t2 ttl).1 = none) := by
  have hl := cacheLookup_setCache_self c k v t0 ttl
  constructor
  · intro h
    simp [getCache, hl, isValidCacheEntry, h]
  · intro h
    have hv : ¬ (t1 - t0 < ttl) := by omega
    have h2 : (getCache (setCache c k v t0 ttl) k t1 ttl).2 =
        cacheDelete (setCache c k v t0 ttl) k := by
      simp [getCache, hl, isValidCacheEntry, hv]
    refine ⟨by simp [getCache, hl, isValidCacheEntry, hv], ?_, ?_⟩
    · rw [h2]
      exact cacheLookup_cacheDelete_self _ _
    · intro t2
      rw [h2]
      simp [getCache, cacheLookup_cacheDelete_self]

/-- C4 witness: with TTL 10, a value put at time 0 is readable at time 5;
at time 12 it is absent, evicted, and stays absent at time 99. -/
theorem c4_cache_ttl_witness :
    ((5 : Int) - 0 < 10 ∧ (getCache (setCache ([] : Cache Nat) "k" 7 0 10) "k" 5 10).1 = some 7) ∧
    ((10 : Int) ≤ 12 - 0 ∧
      (getCache (setCache ([] : Cache Nat) "k" 7 0 10) "k" 12 10).1 = none ∧
      cacheLookup ((getCache (setCache ([] : Cache Nat) "k" 7 0 10) "k" 12 10).2) "k" = none ∧
      (getCache ((getCache (setCache ([] : Cache Nat) "k" 7 0 10) "k" 12 10).2) "k" 99 10).1 = none) :=
  ⟨⟨by decide, (c4_cache_ttl [] "k" 7 10 0 5).1 (by decide)⟩,
   ⟨by decide,
    ((c4_cache_ttl [] "k" 7 10 0 12).2 (by decide)).1,
    ((c4_cache_ttl [] "k" 7 10 0 12).2 (by decide)).2.1,
    ((c4_cache_ttl [] "k" 7 10 0 12).2 (by decide)).2.2 99⟩⟩

/-! ## API facade (ApiService cached read operations) -/

/-- A backend response envelope: `status ∈ {success, error, warning,
partial}` plus an opaque payload. -/
structure Envelope (α : Type) where
  status : String
  payload : α
deriving DecidableEq, Repr

/-- Insertion step for sorting query parameters by key. -/
def insertSortedParam (p : String × String) :
    List (String × String) → List (String × String)
  | [] => [p]
  | q :: rest => if p.1 ≤ q.1 then p :: q :: rest else q :: insertSortedParam p rest

/-- `Object.keys(params).sort()`: parameters ordered by key. -/
def sortParamsByKey : List (String × String) → List (String × String)
  | [] => []
  | p :: rest => insertSortedParam p (sortParamsByKey rest)

/-- getCacheKey: endpoint plus sorted `key=value` pairs joined by `&`,
appended after `?` when any parameter is present. -/
def getCacheKey (url : String) (params : List (String × String)) : String :=
  let paramString :=
    String.intercalate "&" ((sortParamsByKey params).map (fun p => p.1 ++ "=" ++ p.2))
  url ++ (if paramString = "" then "" else "?" ++ paramString)

/-- Outcome of one facade read: the value returned (or error propagated)
and the cache as left behind by the operation. -/
structure ApiCallResult (α : Type) where
  result : Except ErrorRecord (Envelope α)
  cache : Cache (Envelope α)

/-- The template shared verbatim by the cached ApiService reads
(searchCompanies, lookupCompany, getCompanyByTicker, getStockQuote,
getCompanyFilings): when useCache, probe the cache and return a hit;
otherwise run the request through retryRequest (its outcome is the
`request` argument here), and cache the envelope only when
`result.status === 'success'` and useCache holds. -/
def cachedGetTemplate {α : Type} (cacheKey : String) (ttl : Int) (useCache : Bool)
    (request : Except ErrorRecord (Envelope α)) (now : Int) (c : Cache (Envelope α)) :
    ApiCallResult α :=
  if useCache then
    let r := getCache c cacheKey now ttl
    match r.1 with
    | some cached => { result := Except.ok cached, cache := r.2 }
    | none =>
      match request with
      | Except.error e => { result := Except.error e, cache := r.2 }
      | Except.ok result =>
        if result.status = "success" then
          { result := Except.ok result, cache := setCache r.2 cacheKey result now ttl }
        else
          { result := Except.ok result, cache := r.2 }
  else
    match request with
    | Except.error e => { result := Except.error e, cache := c }
    | Except.ok result => { result := Except.ok result, cache := c }

/-- Params of ApiService.searchCompanies: `{ q: query }` plus `limit` when
supplied. -/
def searchParams (query : String) (limit : Option String) : List (String × String) :=
  ("q", query) :: (match limit with | some l => [("limit", l)] | none => [])

/-- Cache key of ApiService.searchCompanies. -/
def searchCacheKey (query : String) (limit : Option String) : String :=
  getCacheKey ("search:" ++ query) (searchParams query limit)

/-- ApiService.searchCompanies, with the network outcome passed in. -/
def searchCompanies {α : Type} (query : String) (limit : Option String) (useCache : Bool)
    (request : Except ErrorRecord (Envelope α)) (now : Int) (c : Cache (Envelope α)) :
    ApiCallResult α :=
  cachedGetTemplate (searchCacheKey query limit) CACHE_CONFIG_SEARCH_TTL useCache request now c

/-- Params of ApiService.lookupCompany (booleans and the numeric limit are
already rendered to their query-string form). -/
def lookupParams (query includeStock includeFilings filingsLimit : String) :
    List (String × String) :=
  [("q", query), ("include_stock", includeStock),
   ("include_filings", includeFilings), ("filings_limit", filingsLimit)]

/-- Cache key of ApiService.lookupCompany. -/
def lookupCacheKey (query includeStock includeFilings filingsLimit : String) : String :=
  getCacheKey ("lookup:" ++ query) (lookupParams query includeStock includeFilings filingsLimit)

/-- ApiService.lookupCompany, with the network outcome passed in. -/
def lookupCompany {α : Type} (query includeStock includeFilings filingsLimit : String)
    (useCache : Bool) (request : Except ErrorRecord (Envelope α)) (now : Int)
    (c : Cache (Envelope α)) : ApiCallResult α :=
  cachedGetTemplate (lookupCacheKey query includeStock includeFilings filingsLimit)
    CACHE_CONFIG_COMPANY_TTL useCache request now c

/-- Cache key of ApiService.getCompanyByTicker (no params). -/
def companyCacheKey (ticker : String) : String :=
  getCacheKey ("company:" ++ ticker) []

/-- ApiService.getCompanyByTicker, with the network outcome passed in. -/
def getCompanyByTicker {α : Type} (ticker : String) (useCache : Bool)
    (request : Except ErrorRecord (Envelope α)) (now : Int) (c : Cache (Envelope α)) :
    ApiCallResult α :=
  cachedGetTemplate (companyCacheKey ticker) CACHE_CONFIG_COMPANY_TTL useCache request now c

/-- Cache key of ApiService.getStockQuote: `{ detailed }` rendered. -/
def stockCacheKey (ticker detailed : String) : String :=
  getCacheKey ("stock:" ++ ticker) [("detailed", detailed)]

/-- ApiService.getStockQuote, with the network outcome passed in. -/
def getStockQuote {α : Type} (ticker detailed : String) (useCache : Bool)
    (request : Except ErrorRecord (Envelope α)) (now : Int) (c : Cache (Envelope α)) :
    ApiCallResult α :=
  cachedGetTemplate (stockCacheKey ticker detailed) CACHE_CONFIG_STOCK_TTL useCache request now c

/-- Params of ApiService.getCompanyFilings: `{ limit }` plus `form_types`
when a non-empty list was supplied (rendered to its query-string form). -/
def filingsParams (limit : String) (formTypes : Option String) : List (String × String) :=
  ("limit", limit) :: (match formTypes with | some ft => [("form_types", ft)] | none => [])

/-- Cache key of ApiService.getCompanyFilings. -/
def filingsCacheKey (cik limit : String) (formTypes : Option String) : String :=
  getCacheKey ("filings:" ++ cik) (filingsParams limit formTypes)

/-- ApiService.getCompanyFilings, with the network outcome passed in. -/
def getCompanyFilings {α : Type} (cik limit : String) (formTypes : Option String)
    (useCache : Bool) (request : Except ErrorRecord (Envelope α)) (now : Int)
    (c : Cache (Envelope α)) : ApiCallResult α :=
  cachedGetTemplate (filingsCacheKey cik limit formTypes) CACHE_CONFIG_FILINGS_TTL
    useCache request now c

/-- A request outcome that is not a success envelope: either the call threw
a classified error, or it returned an envelope whose status is not
'success'. -/
def isNonSuccessOutcome {α : Type} (request : Except ErrorRecord (Envelope α)) : Prop :=
  (∃ e, request = Except.error e) ∨ ∃ env, request = Except.ok env ∧ env.status ≠ "success"

/-- On a non-success outcome the template writes nothing: the cache it
leaves behind is exactly what the initial lookup left (identical when
useCache is off or the probed entry was fresh or absent; with an expired
entry lazily evicted otherwise). -/
theorem cachedGetTemplate_nonsuccess_cache {α : Type} (cacheKey : String) (ttl : Int)
    (useCache : Bool) (request : Except ErrorRecord (Envelope α)) (now : Int)
    (c : Cache (Envelope α)) (h : isNonSuccessOutcome request) :
    (cachedGetTemplate cacheKey ttl useCache request now c).cache =
      (if useCache then (getCache c cacheKey now ttl).2 else c) := by
  unfold cachedGetTemplate
  cases useCache with
  | false =>
    cases request with
    | error e => rfl
    | ok env => rfl
  | true =>
    simp only [if_true]
    rcases hg : (getCache c cacheKey now ttl).1 with _ | cached
    · cases request with
      | error e => simp [hg]
      | ok env =>
        rcases h with ⟨e, he⟩ | ⟨env', henv, hst⟩
        · exact absurd he (by simp)
        · injection henv with henv
          subst henv
          simp [hg, hst]
    · simp [hg]

/-- C5 amended: for each cached read of the facade, an entry is written
only when the call produced an envelope with status 'success'; on a thrown
classified error or a non-success envelope the operation adds or refreshes
nothing — the cache is exactly what the initial lookup left behind (the
lookup may have lazily evicted an expired entry under the operation's key). -/
theorem c5_cache_written_only_on_success {α : Type} (useCache : Bool)
    (request : Except ErrorRecord (Envelope α)) (now : Int) (c : Cache (Envelope α))
    (query ticker cik : String) (limit formTypes : Option String)
    (includeStock includeFilings filingsLimit detailed flimit : String)
    (h : isNonSuccessOutcome request) :
    (searchCompanies query limit useCache request now c).cache =
      (if useCache then (getCache c (searchCacheKey query limit) now CACHE_CONFIG_SEARCH_TTL).2 else c) ∧
    (lookupCompany query includeStock includeFilings filingsLimit useCache request now c).cache =
      (if useCache then (getCache c (lookupCacheKey query includeStock includeFilings filingsLimit) now CACHE_CONFIG_COMPANY_TTL).2 else c) ∧
    (getCompanyByTicker ticker useCache request now c).cache =
      (if useCache then (getCache c (companyCacheKey ticker) now CACHE_CONFIG_COMPANY_TTL).2 else c) ∧
    (getStockQuote ticker detailed useCache request now c).cache =
      (if useCache then (getCache c (stockCacheKey ticker detailed) now CACHE_CONFIG_STOCK_TTL).2 else c) ∧
    (getCompanyFilings cik flimit formTypes useCache request now c).cache =
      (if useCache then (getCache c (filingsCacheKey cik flimit formTypes) now CACHE_CONFIG_FILINGS_TTL).2 else c) :=
  ⟨cachedGetTemplate_nonsuccess_cache _ _ _ _ _ _ h,
   cachedGetTemplate_nonsuccess_cache _ _ _ _ _ _ h,
   cachedGetTemplate_nonsuccess_cache _ _ _ _ _ _ h,
   cachedGetTemplate_nonsuccess_cache _ _ _ _ _ _ h,
   cachedGetTemplate_nonsuccess_cache _ _ _ _ _ _ h⟩

/-- A successful search envelope used to seed the counterexample cache. -/
def staleEnvelope : Envelope Unit := { status := "success", payload := () }

/-- A cache holding one search entry written at time 0 with the search TTL
(2 minutes); at time 200000 the entry is expired but still physically
present. -/
def staleCache : Cache (Envelope Unit) :=
  setCache [] (searchCacheKey "tesla" none) staleEnvelope 0 CACHE_CONFIG_SEARCH_TTL

/-- C5 counterexample: with an expired entry under the search key in the
cache, a searchCompanies call whose request throws err500 propagates the
error yet changes the cache contents: the lazy eviction inside the lookup
removes the stale entry, refuting the claim that the cache is unchanged by
an operation whose request throws. -/
theorem c5_counterexample :
    (searchCompanies "tesla" none true (Except.error err500) 200000 staleCache).result =
      Except.error err500 ∧
    (searchCompanies "tesla" none true (Except.error err500) 200000 staleCache).cache ≠
      staleCache := by
  have hget : getCache staleCache (searchCacheKey "tesla" none) 200000 CACHE_CONFIG_SEARCH_TTL
      = (none, []) := by
    show getCache (setCache [] (searchCacheKey "tesla" none) staleEnvelope 0 CACHE_CONFIG_SEARCH_TTL)
        (searchCacheKey "tesla" none) 200000 CACHE_CONFIG_SEARCH_TTL = (none, [])
    simp [getCache, cacheLookup, isValidCacheEntry, CACHE_CONFIG_SEARCH_TTL,
      setCache, cacheDelete]
  constructor
  · simp [searchCompanies, cachedGetTemplate, hget]
  · simp only [searchCompanies, cachedGetTemplate, if_true, hget]
    show ([] : Cache (Envelope Unit)) ≠ staleCache
    simp [staleCache, setCache]

/-- C5 witness: with an empty cache and a failing request, each facade read
leaves the cache exactly as its lookup left it. -/
theorem c5_cache_written_only_on_success_witness :
    isNonSuccessOutcome (Except.error err500 : Except ErrorRecord (Envelope Unit)) ∧
    ((searchCompanies "q" none true (Except.error err500) 0 ([] : Cache (Envelope Unit))).cache =
      (if true then (getCache ([] : Cache (Envelope Unit)) (searchCacheKey "q" none) 0 CACHE_CONFIG_SEARCH_TTL).2 else []) ∧
    (lookupCompany "q" "true" "true" "5" true (Except.error err500) 0 ([] : Cache (Envelope Unit))).cache =
      (if true then (getCache ([] : Cache (Envelope Unit)) (lookupCacheKey "q" "true" "true" "5") 0 CACHE_CONFIG_COMPANY_TTL).2 else []) ∧
    (getCompanyByTicker "TSLA" true (Except.error err500) 0 ([] : Cache (Envelope Unit))).cache =
      (if true then (getCache ([] : Cache (Envelope Unit)) (companyCacheKey "TSLA") 0 CACHE_CONFIG_COMPANY_TTL).2 else []) ∧
    (getStockQuote "TSLA" "false" true (Except.error err500) 0 ([] : Cache (Envelope Unit))).cache =
      (if true then (getCache ([] : Cache (Envelope Unit)) (stockCacheKey "TSLA" "false") 0 CACHE_CONFIG_STOCK_TTL).2 else []) ∧
    (getCompanyFilings "320193" "10" none true (Except.error err500) 0 ([] : Cache (Envelope Unit))).cache =
      (if true then (getCache ([] : Cache (Envelope Unit)) (filingsCacheKey "320193" "10" none) 0 CACHE_CONFIG_FILINGS_TTL).2 else [])) :=
  ⟨Or.inl ⟨err500, rfl⟩,
   c5_cache_written_only_on_success true (Except.error err500) 0 [] "q" "TSLA" "320193"
     none none "true" "true" "5" "false" "10" (Or.inl ⟨err500, rfl⟩)⟩

/-! ## Recent searches (ApiService.saveRecentSearch) -/

/-- ApiService.saveRecentSearch: `[query, ...recent.filter(q => q !==
query)].slice(0, 10)` — move (or insert) the query to the front, dropping
any previous occurrence, and keep at most 10 entries. The `recent` argument
is the currently stored list. -/
def saveRecentSearch (query : String) (recent : List String) : List String :=
  (query :: recent.filter (fun q => q != query)).take 10

/-- The stored list after a whole sequence of saves, starting from the
empty store. -/
def saveRecentSearchAll (queries : List String) : List String :=
  queries.foldl (fun recent q => saveRecentSearch q recent) []

/-- Unfolded form of one save: the query in front of the first 9 surviving
old entries. -/
theorem saveRecentSearch_eq (query : String) (recent : List String) :
    saveRecentSearch query recent =
      query :: (recent.filter (fun q => q != query)).take 9 := rfl

/-- One save keeps the stored list duplicate-free. -/
theorem saveRecentSearch_nodup (query : String) (recent : List String)
    (h : recent.Nodup) : (saveRecentSearch query recent).Nodup := by
  rw [saveRecentSearch_eq]
  refine List.nodup_cons.mpr ⟨?_, ?_⟩
  · intro hm
    have := List.take_subset _ _ hm
    simp [List.mem_filter] at this
  · exact (h.filter _).sublist (List.take_sublist _ _)

/-- One save keeps the stored list within the bound of 10 entries. -/
theorem saveRecentSearch_length_le (query : String) (recent : List String) :
    (saveRecentSearch query recent).length ≤ 10 := by
  simp [saveRecentSearch, List.length_take]

/-- The saved query lands at the front of the stored list. -/
theorem saveRecentSearch_head (query : String) (recent : List String) :
    (saveRecentSearch query recent).head? = some query := rfl

/-- The saved query occurs exactly once afterwards (moved, not duplicated). -/
theorem saveRecentSearch_count (query : String) (recent : List String) :
    (saveRecentSearch query recent).count query = 1 := by
  rw [saveRecentSearch_eq, List.count_cons_self]
  have hnot : query ∉ (recent.filter (fun q => q != query)).take 9 := by
    intro hm
    have := List.take_subset _ _ hm
    simp [List.mem_filter] at this
  rw [List.count_eq_zero.mpr hnot]

/-- Folding saves over any duplicate-free bounded store keeps it
duplicate-free and bounded. -/
theorem saveRecentSearchAll_fold_invariant (queries : List String) :
    ∀ acc : List String, acc.Nodup → acc.length ≤ 10 →
      (queries.foldl (fun recent q => saveRecentSearch q recent) acc).Nodup ∧
      (queries.foldl (fun recent q => saveRecentSearch q recent) acc).length ≤ 10 := by
  induction queries with
  | nil => intro acc h1 h2; exact ⟨h1, h2⟩
  | cons q rest ih =>
    intro acc h1 _
    exact ih _ (saveRecentSearch_nodup q acc h1) (saveRecentSearch_length_le q acc)

/-- Exact length of the store after saving fresh distinct queries over a
store disjoint from them: it grows by one per save, capped at 10. -/
theorem saveRecentSearchAll_fold_length (queries : List String) :
    ∀ acc : List String, acc.Nodup → acc.length ≤ 10 → queries.Nodup →
      (∀ x ∈ acc, x ∉ queries) →
      (queries.foldl (fun recent q => saveRecentSearch q recent) acc).length =
        min (acc.length + queries.length) 10 := by
  induction queries with
  | nil =>
    intro acc _ h2 _ _
    simp only [List.foldl_nil, List.length_nil, Nat.add_zero]
    omega
  | cons q rest ih =>
    intro acc h1 h2 h3 h4
    have hq : q ∉ acc := fun hm => (h4 q hm) (by simp)
    have hfilter : acc.filter (fun x => x != q) = acc := by
      apply List.filter_eq_self.mpr
      intro a ha
      simp only [bne_iff_ne, ne_eq, decide_eq_true_eq]
      intro hEq
      exact hq (hEq ▸ ha)
    have hsave : saveRecentSearch q acc = (q :: acc).take 10 := by
      simp [saveRecentSearch, hfilter]
    have hlen : (saveRecentSearch q acc).length = min (acc.length + 1) 10 := by
      rw [hsave, List.length_take]
      simp [Nat.min_comm]
    have hsub : ∀ x ∈ saveRecentSearch q acc, x = q ∨ x ∈ acc := by
      intro x hx
      rw [hsave] at hx
      have := List.take_subset _ _ hx
      simpa using this
    have hdisj : ∀ x ∈ saveRecentSearch q acc, x ∉ rest := by
      intro x hx
      rcases hsub x hx with rfl | hxa
      · exact (List.nodup_cons.mp h3).1
      · intro hr
        exact h4 x hxa (by simp [hr])
    have hrec := ih (saveRecentSearch q acc) (saveRecentSearch_nodup q acc h1)
      (saveRecentSearch_length_le q acc) (List.nodup_cons.mp h3).2 hdisj
    simp only [List.foldl_cons] at *
    rw [hrec, hlen]
    simp only [List.length_cons]
    omega

/-- C7: invariants of the recent-search store. After any sequence of saves
starting from the empty store the list is duplicate-free with at most 10
entries; each save puts the saved query at the front (most recent first)
exactly once (an already-present query is moved, not duplicated); and after
more than 10 distinct saves the list holds exactly 10 entries. -/
theorem c7_recent_search_list (queries : List String) (query : String) (recent : List String) :
    (saveRecentSearchAll queries).Nodup ∧
    (saveRecentSearchAll queries).length ≤ 10 ∧
    (saveRecentSearch query recent).head? = some query ∧
    (saveRecentSearch query recent).count query = 1 ∧
    (saveRecentSearchAll (queries ++ [query])).head? = some query ∧
    (queries.Nodup → 10 < queries.length → (saveRecentSearchAll queries).length = 10) := by
  obtain ⟨hnd, hle⟩ := saveRecentSearchAll_fold_invariant queries [] (by simp) (by simp)
  refine ⟨hnd, hle, saveRecentSearch_head query recent, saveRecentSearch_count query recent, ?_, ?_⟩
  · have : saveRecentSearchAll (queries ++ [query]) =
        saveRecentSearch query (saveRecentSearchAll queries) := by
      simp [saveRecentSearchAll, List.foldl_append]
    rw [this]
    exact saveRecentSearch_head _ _
  · intro hnodup hlong
    have := saveRecentSearchAll_fold_length queries [] (by simp) (by simp) hnodup (by simp)
    rw [saveRecentSearchAll, this]
    simp only [List.length_nil, Nat.zero_add]
    omega

/-- C7 witness: saving 11 distinct queries leaves exactly 10 stored, with
the last-saved query in front and present exactly once. -/
theorem c7_recent_search_list_witness :
    (["a", "b", "c", "d", "e", "f", "g", "h", "i", "j", "k"] : List String).Nodup ∧
    10 < (["a", "b", "c", "d", "e", "f", "g", "h", "i", "j", "k"] : List String).length ∧
    (saveRecentSearchAll ["a", "b", "c", "d", "e", "f", "g", "h", "i", "j", "k"]).length = 10 ∧
    (saveRecentSearch "b" ["a", "b", "c"]).head? = some "b" ∧
    (saveRecentSearch "b" ["a", "b", "c"]).count "b" = 1 :=
  ⟨by decide, by decide,
   (c7_recent_search_list ["a", "b", "c", "d", "e", "f", "g", "h", "i", "j", "k"] "x" []).2.2.2.2.2
     (by decide) (by decide),
   (c7_recent_search_list [] "b" ["a", "b", "c"]).2.2.1,
   (c7_recent_search_list [] "b" ["a", "b", "c"]).2.2.2.1⟩

/-! ## Debounced search orchestrator (useCompanySearch.performSearch) -/

/-- A search response envelope as consumed by performSearch:
`response.status`, `response.message`, and `response.data?.results`
(both optional hops flattened into one Option). -/
structure SearchEnvelope where
  status : String
  message : Option String
  dataResults : Option (List String)
deriving DecidableEq, Repr

/-- The orchestrator state owned by useCompanySearch that performSearch
mutates: results, loading, error, hasSearched. -/
structure SearchState where
  results : List String
  loading : Bool
  error : Option String
  hasSearched : Bool
deriving DecidableEq, Repr

/-- Initial hook state. -/
def initialSearchState : SearchState :=
  { results := [], loading := false, error := none, hasSearched := false }

/-- Synchronous prefix of performSearch: a missing or below-minimum query
clears results/error/hasSearched and issues no request (second component
false); otherwise loading is set, error cleared, and the request is issued
(second component true). -/
def performSearchStart (minQueryLength : Nat) (searchQuery : String) (s : SearchState) :
    SearchState × Bool :=
  if searchQuery = "" ∨ searchQuery.length < minQueryLength then
    ({ s with results := [], error := none, hasSearched := false }, false)
  else
    ({ s with loading := true, error := none }, true)

/-- Continuation of performSearch once its awaited response resolves. The
handler updates state unconditionally — there is no sequence number or
staleness check on the resolving response. (The saveRecentSearch side
effect on non-empty successful results is modelled separately by
saveRecentSearch.) -/
def performSearchComplete (response : Except ErrorRecord SearchEnvelope) (s : SearchState) :
    SearchState :=
  match response with
  | Except.ok env =>
    if env.status = "success" then
      { s with results := env.dataResults.getD []
               hasSearched := true
               loading := false }
    else
      { s with error := some (jsOrString env.message "Search failed")
               results := []
               hasSearched := true
               loading := false }
  | Except.error err =>
    { s with error := some (jsOrString (some err.message) "Search failed. Please try again.")
             results := []
             hasSearched := true
             loading := false }

/-- Successful response of the earlier search ("AP"). -/
def respA : SearchEnvelope :=
  { status := "success", message := none, dataResults := some ["Apple Inc"] }

/-- Successful response of the later search ("APP"). -/
def respAB : SearchEnvelope :=
  { status := "success", message := none, dataResults := some ["AB Volvo"] }

/-- C3 evaluated at the failing input: two searches are issued in order
("AP" then "APP", both above the minimum length so both fetch); the later
search's response is applied first and the earlier one resolves after it.
The final results are the earlier query's — performSearchComplete has no
sequence check, so the last response to complete wins, not the last
issued, contradicting the claimed ordering guarantee. -/
theorem c3_out_of_order_resolution :
    (performSearchStart SEARCH_CONFIG_MIN_QUERY_LENGTH "AP" initialSearchState).2 = true ∧
    (performSearchStart SEARCH_CONFIG_MIN_QUERY_LENGTH "APP"
      (performSearchStart SEARCH_CONFIG_MIN_QUERY_LENGTH "AP" initialSearchState).1).2 = true ∧
    (performSearchComplete (Except.ok respA)
      (performSearchComplete (Except.ok respAB)
        (performSearchStart SEARCH_CONFIG_MIN_QUERY_LENGTH "APP"
          (performSearchStart SEARCH_CONFIG_MIN_QUERY_LENGTH "AP" initialSearchState).1).1)).results
      = respA.dataResults.getD [] ∧
    respA.dataResults.getD [] ≠ respAB.dataResults.getD [] := by
  decide

/-! ## Query validation (validateSearchQuery from the validators module) -/

/-- Whitespace as used by JS `String.prototype.trim` and the regex class
`\s` (ASCII portion plus NBSP; sufficient for the inputs below, and the
theorems depend only on the same class being used consistently). -/
def isJsWhitespace (c : Char) : Bool :=
  c == ' ' || c == '\t' || c == '\n' || c == '\r' || c == '\x0b' || c == '\x0c' || c == ' '

/-- JS `query.trim()`: strip leading and trailing whitespace only. -/
def jsTrim (s : List Char) : List Char :=
  ((s.dropWhile isJsWhitespace).reverse.dropWhile isJsWhitespace).reverse

/-- The regex class `\w`: ASCII letters, digits, underscore. -/
def isWordChar (c : Char) : Bool :=
  c.isAlphanum || c == '_'

/-- Case-insensitive prefix test (regex `i` flag). -/
def startsWithCI : List Char → List Char → Bool
  | [], _ => true
  | _ :: _, [] => false
  | p :: ps, c :: cs => p.toLower == c.toLower && startsWithCI ps cs

/-- Does the predicate hold at some suffix, i.e. does an unanchored regex
match somewhere in the list? -/
def anySuffix (p : List Char → Bool) : List Char → Bool
  | [] => p []
  | c :: cs => p (c :: cs) || anySuffix p cs

/-- Match of `tag[^>]*>` (case-insensitive) at the head of the list: the
tag prefix followed eventually by a closing angle bracket. -/
def tagPatternAt (tag : List Char) (l : List Char) : Bool :=
  startsWithCI tag l && (l.drop tag.length).contains '>'

/-- Unanchored `/<script[^>]*>/i`-style test. -/
def containsTagPattern (tag : List Char) (l : List Char) : Bool :=
  anySuffix (tagPatternAt tag) l

/-- Unanchored case-insensitive substring test (for `/javascript:/i`). -/
def containsCI (sub : List Char) (l : List Char) : Bool :=
  anySuffix (startsWithCI sub) l

/-- Match of `on\w+\s*=` (case-insensitive) at the head of the list. -/
def onEventPatternAt (l : List Char) : Bool :=
  startsWithCI ['o', 'n'] l &&
    (let rest := l.drop 2
     let w := rest.takeWhile isWordChar
     decide (w ≠ []) && (((rest.drop w.length).dropWhile isJsWhitespace).head? == some '='))

/-- Unanchored `/on\w+\s*=/i` test. -/
def containsOnEventPattern (l : List Char) : Bool :=
  anySuffix onEventPatternAt l

/-- The suspiciousPatterns loop of validateSearchQuery: `/<script[^>]*>/i`,
`/javascript:/i`, `/on\w+\s*=/i`, `/<iframe[^>]*>/i`. -/
def hasSuspiciousPattern (l : List Char) : Bool :=
  containsTagPattern "<script".toList l ||
  containsCI "javascript:".toList l ||
  containsOnEventPattern l ||
  containsTagPattern "<iframe".toList l

/-- Result record of the validators: `{ isValid, error? , value? }`. -/
structure ValidationResult where
  isValid : Bool
  error : Option String
  value : Option (List Char)
deriving DecidableEq, Repr

/-- validateSearchQuery from the validators module: empty input is
rejected; the trimmed query must be within the length bounds and free of
the suspicious patterns; on success the trimmed string is returned as the
value. -/
def validateSearchQuery (query : List Char) : ValidationResult :=
  if query = [] then
    { isValid := false, error := some "Search query is required", value := none }
  else
    let queryStr := jsTrim query
    if queryStr.length < SEARCH_CONFIG_MIN_QUERY_LENGTH then
      { isValid := false
        error := some ("Query must be at least " ++
          toString SEARCH_CONFIG_MIN_QUERY_LENGTH ++ " characters")
        value := none }
    else if queryStr.length > SEARCH_CONFIG_MAX_QUERY_LENGTH then
      { isValid := false
        error := some ("Query cannot exceed " ++
          toString SEARCH_CONFIG_MAX_QUERY_LENGTH ++ " characters")
        value := none }
    else if hasSuspiciousPattern queryStr then
      { isValid := false, error := some "Query contains invalid characters", value := none }
    else
      { isValid := true, error := none, value := some queryStr }

/-- Modelled from the spec: the round-trip property's "whitespace
trimming/collapsing (leading/trailing whitespace removed and internal
whitespace runs normalized)" — trim, then replace each maximal internal
whitespace run by a single space. Stated only to compare the claim's
wording against validateSearchQuery. -/
def squeezeWhitespace : List Char → List Char
  | [] => []
  | [c] => [c]
  | a :: b :: rest =>
    if isJsWhitespace a && isJsWhitespace b then squeezeWhitespace (b :: rest)
    else a :: squeezeWhitespace (b :: rest)

/-- Modelled from the spec: full trim-and-collapse normalization. -/
def specNormalizeWhitespace (q : List Char) : List Char :=
  (squeezeWhitespace (jsTrim q)).map (fun c => if isJsWhitespace c then ' ' else c)

/-- Any list is the reverse-trimmed core followed by its trailing segment
satisfying the predicate. -/
theorem reverse_dropWhile_split {α : Type} (p : α → Bool) (a : List α) :
    a = (a.reverse.dropWhile p).reverse ++ (a.reverse.takeWhile p).reverse :=
  calc a = a.reverse.reverse := (List.reverse_reverse a).symm
  _ = ((a.reverse.takeWhile p) ++ (a.reverse.dropWhile p)).reverse := by
      rw [@List.takeWhile_append_dropWhile _ p a.reverse]
  _ = (a.reverse.dropWhile p).reverse ++ (a.reverse.takeWhile p).reverse := by
      rw [List.reverse_append]

/-- jsTrim only removes a whitespace prefix and a whitespace suffix: the
input splits as whitespace ++ trimmed ++ whitespace. -/
theorem jsTrim_decomposition (l : List Char) :
    ∃ pre post : List Char,
      (∀ c ∈ pre, isJsWhitespace c = true) ∧
      (∀ c ∈ post, isJsWhitespace c = true) ∧
      l = pre ++ jsTrim l ++ post := by
  refine ⟨l.takeWhile isJsWhitespace,
    ((l.dropWhile isJsWhitespace).reverse.takeWhile isJsWhitespace).reverse, ?_, ?_, ?_⟩
  · intro c hc
    exact List.mem_takeWhile_imp hc
  · intro c hc
    rw [List.mem_reverse] at hc
    exact List.mem_takeWhile_imp hc
  · rw [List.append_assoc]
    conv_lhs => rw [← @List.takeWhile_append_dropWhile _ isJsWhitespace l]
    congr 1
    exact reverse_dropWhile_split isJsWhitespace (l.dropWhile isJsWhitespace)

/-- C9 counterexample: the query "ab  cd" (two internal spaces) is below
the maximum length and accepted by validateSearchQuery, and its returned
value is the input itself — the internal whitespace run is not collapsed,
so the value differs from the spec-worded trim-and-collapse normalization
"ab cd". -/
theorem c9_counterexample :
    (validateSearchQuery ("ab  cd".toList)).isValid = true ∧
    ("ab  cd".toList).length < SEARCH_CONFIG_MAX_QUERY_LENGTH ∧
    (validateSearchQuery ("ab  cd".toList)).value = some ("ab  cd".toList) ∧
    specNormalizeWhitespace ("ab  cd".toList) = "ab cd".toList ∧
    (validateSearchQuery ("ab  cd".toList)).value ≠
      some (specNormalizeWhitespace ("ab  cd".toList)) := by
  decide

/-- C9 amended: a query accepted by validateSearchQuery is passed through
unmodified except for whitespace trimming: the returned value is exactly
the input with a (whitespace-only) prefix and suffix removed; internal
whitespace is preserved, not collapsed. -/
theorem c9_valid_value_is_trim (query : List Char)
    (h : (validateSearchQuery query).isValid = true) :
    (validateSearchQuery query).value = some (jsTrim query) ∧
    ∃ pre post : List Char,
      (∀ c ∈ pre, isJsWhitespace c = true) ∧
      (∀ c ∈ post, isJsWhitespace c = true) ∧
      query = pre ++ jsTrim query ++ post := by
  constructor
  · simp only [validateSearchQuery] at h ⊢
    split_ifs at h ⊢
    simp_all
  · exact jsTrim_decomposition query

/-- C9 witness: "  tesla motors " validates, and the value is the trimmed
input "tesla motors" with its internal single space intact. -/
theorem c9_valid_value_is_trim_witness :
    (validateSearchQuery ("  tesla motors ".toList)).isValid = true ∧
    (validateSearchQuery ("  tesla motors ".toList)).value =
      some (jsTrim ("  tesla motors ".toList)) :=
  ⟨by decide, (c9_valid_value_is_trim ("  tesla motors ".toList) (by decide)).1⟩

/-! ## Recent-search load (ApiService.getRecentSearches) -/

/-- A JSON value as produced by JSON.parse, at the granularity this layer
observes: the recent-search list is an array of strings; any other JSON
top-level value is possible when the store was written by someone else. -/
inductive JsonValue where
  | null : JsonValue
  | bool : Bool → JsonValue
  | num : Int → JsonValue
  | str : String → JsonValue
  | arrOfStr : List String → JsonValue
deriving DecidableEq, Repr

/-- Is the value a JSON array? -/
def JsonValue.isArray : JsonValue → Bool
  | JsonValue.arrOfStr _ => true
  | _ => false

/-- ApiService.getRecentSearches: `const stored =
localStorage.getItem(key); return stored ? JSON.parse(stored) : [];`
wrapped in try/catch returning [] on any failure. The store state is the
`stored` argument (none = key absent); JSON.parse is the JS standard
library, passed in as `jsonParse` (Except.error = the parse throws). A
missing key or the falsy empty string yields []; a parse failure is caught
and yields []; otherwise the parsed value is returned as-is. -/
def getRecentSearches (stored : Option String)
    (jsonParse : String → Except Unit JsonValue) : JsonValue :=
  match stored with
  | none => JsonValue.arrOfStr []
  | some s =>
    if s = "" then JsonValue.arrOfStr []
    else
      match jsonParse s with
      | Except.ok v => v
      | Except.error _ => JsonValue.arrOfStr []

/-- JSON.parse restricted to the one input the counterexample evaluates:
JSON.parse("5") yields the number 5 (a valid top-level JSON scalar). -/
def jsonParseNumberFive : String → Except Unit JsonValue :=
  fun s => if s = "5" then Except.ok (JsonValue.num 5) else Except.error ()

/-- C10 counterexample: with the valid-JSON non-array value "5" stored,
getRecentSearches returns the parsed number 5, which is not an array —
refuting "returns an array for every state of the persistent store". -/
theorem c10_counterexample :
    getRecentSearches (some "5") jsonParseNumberFive = JsonValue.num 5 ∧
    (getRecentSearches (some "5") jsonParseNumberFive).isArray = false := by
  decide

/-- C10 amended: getRecentSearches never throws: a missing key yields the
empty list, a stored value whose parse throws yields the empty list (the
catch), and a parsable stored value is returned as parsed — an array
exactly when the stored JSON value is an array (as every value written by
saveRecentSearch is). -/
theorem c10_get_recent_searches_total (stored : Option String)
    (jsonParse : String → Except Unit JsonValue) :
    (stored = none → getRecentSearches stored jsonParse = JsonValue.arrOfStr []) ∧
    (∀ s, stored = some s → jsonParse s = Except.error () →
      getRecentSearches stored jsonParse = JsonValue.arrOfStr []) ∧
    (∀ s v, stored = some s → s ≠ "" → jsonParse s = Except.ok v →
      getRecentSearches stored jsonParse = v) ∧
    (∀ s l, stored = some s → s ≠ "" → jsonParse s = Except.ok (JsonValue.arrOfStr l) →
      (getRecentSearches stored jsonParse).isArray = true) := by
  refine ⟨?_, ?_, ?_, ?_⟩
  · intro h
    subst h
    rfl
  · intro s hs hp
    subst hs
    by_cases he : s = "" <;> simp [getRecentSearches, he, hp]
  · intro s v hs hne hp
    subst hs
    simp [getRecentSearches, hne, hp]
  · intro s l hs hne hp
    subst hs
    simp [getRecentSearches, hne, hp, JsonValue.isArray]

/-- C10 witness: a missing key and an unparsable stored value both yield
the empty list. -/
theorem c10_get_recent_searches_total_witness :
    getRecentSearches none jsonParseNumberFive = JsonValue.arrOfStr [] ∧
    getRecentSearches (some "not json") (fun _ => Except.error ()) = JsonValue.arrOfStr [] :=
  ⟨(c10_get_recent_searches_total none jsonParseNumberFive).1 rfl,
   (c10_get_recent_searches_total (some "not json") (fun _ => Except.error ())).2.1
     "not json" rfl rfl⟩
